import Mathlib

/-!
Verification development for the user views of the OnyxForum repository
(`flaskbb/user/views.py`).  Each Flask view is shallowly embedded as a pure
function from its request-relevant inputs (form validation result, update
handler outcome, query parameters, record stores, filesystem contents, the
authenticated user) to an explicit trace of observable effects together with
the updated persistent state.  External collaborators (the form object, the
update handlers, `has_permission`, `get_byond_ckey`, `secrets.token_hex`) are
passed in as parameters, exactly as the views receive them.
-/

namespace Flaskbb

/-- An authenticated user record (`flaskbb.user.models.User`), restricted to
the fields the views read: `id`, `username`, `discord`. -/
structure User where
  id : Int
  username : String
  discord : String
  deriving DecidableEq

/-- An uploaded-file record (`flaskbb.forum.models.UploadedFile`), restricted
to the fields the views read: `id`, `user_id`, `current_name`. -/
structure UploadedFile where
  id : Int
  user_id : Int
  current_name : String
  deriving DecidableEq

/-- A linking token record (`hub.models.Token`) as used by the view: the token
string and the discord user id it is issued for. -/
structure Token where
  token : String
  discord_user_id : String
  deriving DecidableEq

/-- One observable effect of a view handler.  A handler run is a list of these
events, in execution order; the final event is the response (a render, a
redirect, a 404 abort, or an unhandled exception). -/
inductive Event where
  | applyChangeset : Event
  | populateErrors : List String → Event
  | flashMsg : String → String → Event
  | logException : String → Event
  | logWarnDelete : UploadedFile → User → String → String → Event
  | logInfoDelete : UploadedFile → User → String → String → Event
  | osRemove : String → Event
  | deleteRecord : Int → Event
  | deleteTokens : String → Event
  | addToken : Token → Event
  | render : String → Event
  | redirectTo : String → Event
  | abort404 : Event
  | unhandledError : String → Event
  deriving DecidableEq

/-- The outcome of `handler.apply_changeset(current_user, form.as_change())`:
it either returns normally, raises `StopValidation(reasons)`, or raises
`PersistenceError`. -/
inductive ApplyOutcome where
  | success : ApplyOutcome
  | stopValidation : List String → ApplyOutcome
  | persistenceError : ApplyOutcome
  deriving DecidableEq

/-- The per-view data of a settings view: its template, its redirect endpoint,
the message used both for the exception log and the danger flash, and the
success flash message. -/
structure SettingsView where
  template : String
  endpoint : String
  error_message : String
  success_message : String
  deriving DecidableEq

/-- `get` of every settings view: render the form template. -/
def settingsGet (v : SettingsView) : List Event :=
  [Event.render v.template]

/-- `post` of every settings view, parameterised by the result of
`form.validate_on_submit()` and by the outcome of the
`apply_changeset` call.  Mirrors the identical bodies of
`UserSettings.post`, `ChangePassword.post`, `ChangeEmail.post` and
`ChangeUserDetails.post`. -/
def settingsPost (v : SettingsView) (validate_on_submit : Bool)
    (outcome : ApplyOutcome) : List Event :=
  if validate_on_submit then
    Event.applyChangeset ::
      (match outcome with
       | ApplyOutcome.stopValidation reasons =>
           [Event.populateErrors reasons, Event.render v.template]
       | ApplyOutcome.persistenceError =>
           [Event.logException v.error_message,
            Event.flashMsg v.error_message "danger",
            Event.redirectTo v.endpoint]
       | ApplyOutcome.success =>
           [Event.flashMsg v.success_message "success",
            Event.redirectTo v.endpoint])
  else
    [Event.render v.template]

/-- The `UserSettings` view (route `user.settings`). -/
def UserSettings : SettingsView :=
  { template := "user/general_settings.html"
    endpoint := "user.settings"
    error_message := "Error while updating user settings"
    success_message := "Settings updated." }

/-- The `ChangePassword` view (route `user.change_password`). -/
def ChangePassword : SettingsView :=
  { template := "user/change_password.html"
    endpoint := "user.change_password"
    error_message := "Error while changing password"
    success_message := "Password updated." }

/-- The `ChangeEmail` view (route `user.change_email`). -/
def ChangeEmail : SettingsView :=
  { template := "user/change_email.html"
    endpoint := "user.change_email"
    error_message := "Error while updating email"
    success_message := "Email address updated." }

/-- The `ChangeUserDetails` view (route `user.change_user_details`). -/
def ChangeUserDetails : SettingsView :=
  { template := "user/change_user_details.html"
    endpoint := "user.change_user_details"
    error_message := "Error while updating user details"
    success_message := "User details updated." }

/-- Classifier: is this event a flash notification? -/
def isFlash : Event → Bool
  | Event.flashMsg _ _ => true
  | _ => false

/-- Classifier: is this event a redirect? -/
def isRedirect : Event → Bool
  | Event.redirectTo _ => true
  | _ => false

/-- Classifier: is this event a template render? -/
def isRender : Event → Bool
  | Event.render _ => true
  | _ => false

/-- Classifier: is this event an invocation of the update handler? -/
def isApplyChangeset : Event → Bool
  | Event.applyChangeset => true
  | _ => false

/-- Classifier: is this event a record deletion? -/
def isDeleteRecord : Event → Bool
  | Event.deleteRecord _ => true
  | _ => false

/-- Classifier: is this event a filesystem removal? -/
def isOsRemove : Event → Bool
  | Event.osRemove _ => true
  | _ => false

/-- A query-string parameter as seen through Flask's
`request.args.get(key, default, type=int)`: the parameter is absent, present
but not parseable as an integer, or carries an integer value. -/
inductive QueryParam where
  | absent : QueryParam
  | unparseable : String → QueryParam
  | intValue : Int → QueryParam
  deriving DecidableEq

/-- Flask semantics of `request.args.get(key, dflt, type=int)`: the default is
returned when the parameter is absent or the `int` conversion fails. -/
def args_get (p : QueryParam) (dflt : Int) : Int :=
  match p with
  | QueryParam.absent => dflt
  | QueryParam.unparseable _ => dflt
  | QueryParam.intValue v => v

/-- Flask's `safe_join(directory, d1, d2)`, modelled as plain path joining
(the collaborator's traversal check is out of scope for this slice). -/
def safe_join (directory : String) (d1 : String) (d2 : String) : String :=
  directory ++ "/" ++ d1 ++ "/" ++ d2

/-- The result of a `DeleteFile.post` run: the effect trace, the surviving
`UploadedFile` records, and the surviving filesystem paths. -/
structure DeleteFileResult where
  trace : List Event
  files : List UploadedFile
  fs : List String
  deriving DecidableEq

/-- `DeleteFile.post`.  Inputs: the `file_id` query parameter, the `User`
store, the authenticated user, the value of
`has_permission(current_user, "admin")`, the configured `UPLOAD_FOLDER`, the
`UploadedFile` store, and the set of existing filesystem paths.
`first_or_404` aborts with 404 when a lookup fails; `os.remove` raises (and
the exception propagates, unhandled) when the path does not exist. -/
def DeleteFile.post (file_id_arg : QueryParam) (users : List User)
    (current_user : User) (has_permission_admin : Bool)
    (upload_folder : String) (files : List UploadedFile)
    (fs : List String) : DeleteFileResult :=
  let file_id := args_get file_id_arg 0
  match files.find? (fun f => f.id == file_id) with
  | none => { trace := [Event.abort404], files := files, fs := fs }
  | some file_record =>
    match users.find? (fun u => u.id == file_record.user_id) with
    | none => { trace := [Event.abort404], files := files, fs := fs }
    | some file_owner =>
      if !(file_owner.id == current_user.id || has_permission_admin) then
        { trace := [Event.logWarnDelete file_record file_owner
                      current_user.username current_user.discord,
                    Event.redirectTo "user.user_uploads"]
          files := files, fs := fs }
      else
        let path := safe_join upload_folder file_owner.discord
          file_record.current_name
        if fs.contains path then
          { trace := [Event.logInfoDelete file_record file_owner
                        current_user.username current_user.discord,
                      Event.osRemove path,
                      Event.deleteRecord file_record.id,
                      Event.flashMsg "File deleted." "success",
                      Event.redirectTo "user.user_uploads"]
            files := files.filter (fun f => !(f.id == file_record.id))
            fs := fs.filter (fun q => !(q == path)) }
        else
          { trace := [Event.logInfoDelete file_record file_owner
                        current_user.username current_user.discord,
                      Event.unhandledError "FileNotFoundError"]
            files := files, fs := fs }

/-- The flash text shown when the discord account is already linked. -/
def already_linked_message (ckey : String) : String :=
  "Ваш дискорд уже привязан к аккаунту " ++ ckey

/-- The flash text that displays a freshly generated token once. -/
def token_flash_message (t : String) : String :=
  "Ваш токен " ++ t ++
    ". Чтобы выполнить привязку BYOND аккаунта, введите его, с помощью консольной команды `.chaotic-token` на одном из наших серверов."

/-- The result of a `GenerateToken.get` run: the effect trace and the
resulting `Token` store. -/
structure GenerateTokenResult where
  trace : List Event
  tokens : List Token
  deriving DecidableEq

/-- `GenerateToken.get`.  Inputs: the authenticated user, the result of
`get_byond_ckey(current_user)` (`none` when no external identity is linked),
the fresh random hex string produced by `secrets.token_hex(16)`, and the
`Token` store.  When an identity is already linked the view only flashes and
redirects; otherwise it deletes every token whose `discord_user_id` equals
`current_user.discord`, persists the new token, flashes it once and
redirects. -/
def GenerateToken.get (current_user : User) (byond_ckey : Option String)
    (token_hex : String) (tokens : List Token) : GenerateTokenResult :=
  match byond_ckey with
  | some ckey =>
      { trace := [Event.flashMsg (already_linked_message ckey) "message",
                  Event.redirectTo "user.profile"]
        tokens := tokens }
  | none =>
      let new_token : Token :=
        { token := token_hex, discord_user_id := current_user.discord }
      { trace := [Event.deleteTokens current_user.discord,
                  Event.addToken new_token,
                  Event.flashMsg (token_flash_message token_hex) "message",
                  Event.redirectTo "user.profile"]
        tokens :=
          tokens.filter
            (fun t => !(t.discord_user_id == current_user.discord))
            ++ [new_token] }

/-- Sample data: a file owner. -/
def sample_owner : User :=
  { id := 1, username := "alice", discord := "alice_d" }

/-- Sample data: a second user, not the owner. -/
def sample_actor : User :=
  { id := 2, username := "bob", discord := "bob_d" }

/-- Sample data: a file owned by `sample_owner`. -/
def sample_file : UploadedFile :=
  { id := 5, user_id := 1, current_name := "a.txt" }

/-- Sample data: the user store. -/
def sample_users : List User := [sample_owner, sample_actor]

/-- Sample data: the uploaded-file store. -/
def sample_files : List UploadedFile := [sample_file]

/-- Sample data: the backing path of `sample_file`. -/
def sample_path : String := "uploads/alice_d/a.txt"

/-- Classifier: is this event a token-store write (bulk delete or insert)? -/
def isTokenWrite : Event → Bool
  | Event.deleteTokens _ => true
  | Event.addToken _ => true
  | _ => false

/-- Filtering for a key after filtering the key away yields nothing. -/
theorem filter_key_after_filter_not_key (key : String) (l : List Token) :
    (l.filter (fun t => !(t.discord_user_id == key))).filter
      (fun t => t.discord_user_id == key) = [] := by
  induction l with
  | nil => rfl
  | cons hd tl ih =>
      by_cases h : hd.discord_user_id = key
      · simp [List.filter_cons, h, ih]
      · simp [List.filter_cons, h, ih]

/-- Claim C1: for every settings view (general settings, password, email,
user details), when the POST handler's `apply_changeset` call raises
`StopValidation(reasons)`, the view feeds `reasons` back into the form
(`populate_errors`) and re-renders the form page; the trace contains no
redirect and no flash notification of any kind. -/
theorem settings_stop_validation_rerenders (reasons : List String) :
    (settingsPost UserSettings true (ApplyOutcome.stopValidation reasons) =
      [Event.applyChangeset, Event.populateErrors reasons,
       Event.render "user/general_settings.html"]) ∧
    (settingsPost ChangePassword true (ApplyOutcome.stopValidation reasons) =
      [Event.applyChangeset, Event.populateErrors reasons,
       Event.render "user/change_password.html"]) ∧
    (settingsPost ChangeEmail true (ApplyOutcome.stopValidation reasons) =
      [Event.applyChangeset, Event.populateErrors reasons,
       Event.render "user/change_email.html"]) ∧
    (settingsPost ChangeUserDetails true (ApplyOutcome.stopValidation reasons) =
      [Event.applyChangeset, Event.populateErrors reasons,
       Event.render "user/change_user_details.html"]) ∧
    ((settingsPost UserSettings true (ApplyOutcome.stopValidation reasons)).filter
      (fun e => isRedirect e || isFlash e) = []) ∧
    ((settingsPost ChangePassword true (ApplyOutcome.stopValidation reasons)).filter
      (fun e => isRedirect e || isFlash e) = []) ∧
    ((settingsPost ChangeEmail true (ApplyOutcome.stopValidation reasons)).filter
      (fun e => isRedirect e || isFlash e) = []) ∧
    ((settingsPost ChangeUserDetails true (ApplyOutcome.stopValidation reasons)).filter
      (fun e => isRedirect e || isFlash e) = []) :=
  ⟨rfl, rfl, rfl, rfl, rfl, rfl, rfl, rfl⟩

/-- Claim C2: for every settings view, when `apply_changeset` raises
`PersistenceError`, the view logs the failure (`logger.exception`), flashes a
generic danger notification, and redirects to its own endpoint; the trace
contains no render of the form page. -/
theorem settings_persistence_error_logs_and_redirects :
    (settingsPost UserSettings true ApplyOutcome.persistenceError =
      [Event.applyChangeset,
       Event.logException "Error while updating user settings",
       Event.flashMsg "Error while updating user settings" "danger",
       Event.redirectTo "user.settings"]) ∧
    (settingsPost ChangePassword true ApplyOutcome.persistenceError =
      [Event.applyChangeset,
       Event.logException "Error while changing password",
       Event.flashMsg "Error while changing password" "danger",
       Event.redirectTo "user.change_password"]) ∧
    (settingsPost ChangeEmail true ApplyOutcome.persistenceError =
      [Event.applyChangeset,
       Event.logException "Error while updating email",
       Event.flashMsg "Error while updating email" "danger",
       Event.redirectTo "user.change_email"]) ∧
    (settingsPost ChangeUserDetails true ApplyOutcome.persistenceError =
      [Event.applyChangeset,
       Event.logException "Error while updating user details",
       Event.flashMsg "Error while updating user details" "danger",
       Event.redirectTo "user.change_user_details"]) ∧
    ((settingsPost UserSettings true ApplyOutcome.persistenceError).filter
      isRender = []) ∧
    ((settingsPost ChangePassword true ApplyOutcome.persistenceError).filter
      isRender = []) ∧
    ((settingsPost ChangeEmail true ApplyOutcome.persistenceError).filter
      isRender = []) ∧
    ((settingsPost ChangeUserDetails true ApplyOutcome.persistenceError).filter
      isRender = []) :=
  ⟨rfl, rfl, rfl, rfl, rfl, rfl, rfl, rfl⟩

/-- Claim C7: for every settings view, a POST whose form fails
`validate_on_submit` only re-renders the form page — whatever the handler
outcome would have been, the handler is never invoked (no `applyChangeset`
event) — and a GET always renders the form. -/
theorem settings_invalid_form_short_circuits (outcome : ApplyOutcome) :
    (settingsPost UserSettings false outcome =
      [Event.render "user/general_settings.html"]) ∧
    (settingsPost ChangePassword false outcome =
      [Event.render "user/change_password.html"]) ∧
    (settingsPost ChangeEmail false outcome =
      [Event.render "user/change_email.html"]) ∧
    (settingsPost ChangeUserDetails false outcome =
      [Event.render "user/change_user_details.html"]) ∧
    ((settingsPost UserSettings false outcome).filter isApplyChangeset = []) ∧
    ((settingsPost ChangePassword false outcome).filter isApplyChangeset = []) ∧
    ((settingsPost ChangeEmail false outcome).filter isApplyChangeset = []) ∧
    ((settingsPost ChangeUserDetails false outcome).filter isApplyChangeset = []) ∧
    (settingsGet UserSettings = [Event.render "user/general_settings.html"]) ∧
    (settingsGet ChangePassword = [Event.render "user/change_password.html"]) ∧
    (settingsGet ChangeEmail = [Event.render "user/change_email.html"]) ∧
    (settingsGet ChangeUserDetails =
      [Event.render "user/change_user_details.html"]) :=
  ⟨rfl, rfl, rfl, rfl, rfl, rfl, rfl, rfl, rfl, rfl, rfl, rfl⟩

/-- Claim C8: for every settings view, when `apply_changeset` returns
normally, the trace is exactly the handler invocation (the persistent state
mutation), then the success flash, then the redirect — so both the mutation
and the notification precede the redirect. -/
theorem settings_success_flashes_before_redirect :
    (settingsPost UserSettings true ApplyOutcome.success =
      [Event.applyChangeset,
       Event.flashMsg "Settings updated." "success",
       Event.redirectTo "user.settings"]) ∧
    (settingsPost ChangePassword true ApplyOutcome.success =
      [Event.applyChangeset,
       Event.flashMsg "Password updated." "success",
       Event.redirectTo "user.change_password"]) ∧
    (settingsPost ChangeEmail true ApplyOutcome.success =
      [Event.applyChangeset,
       Event.flashMsg "Email address updated." "success",
       Event.redirectTo "user.change_email"]) ∧
    (settingsPost ChangeUserDetails true ApplyOutcome.success =
      [Event.applyChangeset,
       Event.flashMsg "User details updated." "success",
       Event.redirectTo "user.change_user_details"]) :=
  ⟨rfl, rfl, rfl, rfl⟩

/-- Claim C3: a file-deletion POST by an authenticated user who is neither
the file's owner nor an admin leaves the record store and the filesystem
unchanged and produces exactly a warning audit-log entry — naming the file,
the owner (with their discord identity), and the actor (username and discord
identity) — followed by a redirect. -/
theorem delete_file_unauthorized_is_noop (file_id_arg : QueryParam)
    (users : List User) (current_user : User) (upload_folder : String)
    (files : List UploadedFile) (fs : List String)
    (file_record : UploadedFile) (file_owner : User)
    (hfind : files.find? (fun f => f.id == args_get file_id_arg 0) =
      some file_record)
    (howner : users.find? (fun u => u.id == file_record.user_id) =
      some file_owner)
    (hne : file_owner.id ≠ current_user.id) :
    DeleteFile.post file_id_arg users current_user false upload_folder
      files fs =
    { trace := [Event.logWarnDelete file_record file_owner
                  current_user.username current_user.discord,
                Event.redirectTo "user.user_uploads"]
      files := files, fs := fs } := by
  have hbeq : (file_owner.id == current_user.id) = false := by
    simpa using hne
  simp [DeleteFile.post, hfind, howner, hbeq]

/-- Witness for C3: `sample_actor` (not the owner, not admin) tries to delete
`sample_file`; stores are unchanged and only the audit warning and redirect
occur. -/
theorem delete_file_unauthorized_is_noop_witness :
    DeleteFile.post (QueryParam.intValue 5) sample_users sample_actor false
      "uploads" sample_files [sample_path] =
    { trace := [Event.logWarnDelete sample_file sample_owner "bob" "bob_d",
                Event.redirectTo "user.user_uploads"]
      files := sample_files, fs := [sample_path] } :=
  delete_file_unauthorized_is_noop (QueryParam.intValue 5) sample_users
    sample_actor "uploads" sample_files [sample_path] sample_file
    sample_owner rfl rfl (by decide)

/-- Claim C4: the file-deletion contract, in three parts.  (1) When no record
matches the resolved `file_id`, the request aborts with 404 and nothing
changes.  (2) When the record exists but its owner does not, the request
aborts with 404 and nothing changes.  (3) When the record and owner resolve
and the actor is authorized (owner or admin) and the backing path exists, the
trace is exactly: audit log, removal of the bytes at
`UPLOAD_FOLDER/owner.discord/file.current_name`, deletion of the record, the
success flash, and the redirect — in that order — and the final state has
that record and that path removed. -/
theorem delete_file_contract :
    (∀ (file_id_arg : QueryParam) (users : List User) (current_user : User)
        (admin : Bool) (upload_folder : String) (files : List UploadedFile)
        (fs : List String),
      files.find? (fun f => f.id == args_get file_id_arg 0) = none →
      DeleteFile.post file_id_arg users current_user admin upload_folder
        files fs =
      { trace := [Event.abort404], files := files, fs := fs }) ∧
    (∀ (file_id_arg : QueryParam) (users : List User) (current_user : User)
        (admin : Bool) (upload_folder : String) (files : List UploadedFile)
        (fs : List String) (file_record : UploadedFile),
      files.find? (fun f => f.id == args_get file_id_arg 0) =
        some file_record →
      users.find? (fun u => u.id == file_record.user_id) = none →
      DeleteFile.post file_id_arg users current_user admin upload_folder
        files fs =
      { trace := [Event.abort404], files := files, fs := fs }) ∧
    (∀ (file_id_arg : QueryParam) (users : List User) (current_user : User)
        (admin : Bool) (upload_folder : String) (files : List UploadedFile)
        (fs : List String) (file_record : UploadedFile) (file_owner : User),
      files.find? (fun f => f.id == args_get file_id_arg 0) =
        some file_record →
      users.find? (fun u => u.id == file_record.user_id) =
        some file_owner →
      (file_owner.id == current_user.id || admin) = true →
      fs.contains
        (safe_join upload_folder file_owner.discord
          file_record.current_name) = true →
      DeleteFile.post file_id_arg users current_user admin upload_folder
        files fs =
      { trace := [Event.logInfoDelete file_record file_owner
                    current_user.username current_user.discord,
                  Event.osRemove
                    (safe_join upload_folder file_owner.discord
                      file_record.current_name),
                  Event.deleteRecord file_record.id,
                  Event.flashMsg "File deleted." "success",
                  Event.redirectTo "user.user_uploads"]
        files := files.filter (fun f => !(f.id == file_record.id))
        fs := fs.filter
          (fun q => !(q == safe_join upload_folder file_owner.discord
            file_record.current_name)) }) := by
  refine ⟨?_, ?_, ?_⟩
  · intro file_id_arg users current_user admin upload_folder files fs h
    simp [DeleteFile.post, h]
  · intro file_id_arg users current_user admin upload_folder files fs
      file_record hfind hown
    simp [DeleteFile.post, hfind, hown]
  · intro file_id_arg users current_user admin upload_folder files fs
      file_record file_owner hfind hown hauth hfs
    have hmem : safe_join upload_folder file_owner.discord
        file_record.current_name ∈ fs := by simpa using hfs
    simp [DeleteFile.post, hfind, hown, hauth, hmem]

/-- Witness for C4, one concrete run per part: an unknown id aborts 404; a
known id with no owner aborts 404; the owner deleting their own existing file
produces the full trace and clears both stores. -/
theorem delete_file_contract_witness :
    (DeleteFile.post (QueryParam.intValue 9) sample_users sample_actor false
       "uploads" sample_files [sample_path] =
     { trace := [Event.abort404], files := sample_files
       fs := [sample_path] }) ∧
    (DeleteFile.post (QueryParam.intValue 5) [] sample_actor false
       "uploads" sample_files [sample_path] =
     { trace := [Event.abort404], files := sample_files
       fs := [sample_path] }) ∧
    (DeleteFile.post (QueryParam.intValue 5) sample_users sample_owner false
       "uploads" sample_files [sample_path] =
     { trace := [Event.logInfoDelete sample_file sample_owner "alice"
                   "alice_d",
                 Event.osRemove sample_path,
                 Event.deleteRecord 5,
                 Event.flashMsg "File deleted." "success",
                 Event.redirectTo "user.user_uploads"]
       files := [], fs := [] }) :=
  ⟨delete_file_contract.1 (QueryParam.intValue 9) sample_users sample_actor
     false "uploads" sample_files [sample_path] rfl,
   delete_file_contract.2.1 (QueryParam.intValue 5) [] sample_actor false
     "uploads" sample_files [sample_path] sample_file rfl rfl,
   delete_file_contract.2.2 (QueryParam.intValue 5) sample_users
     sample_owner false "uploads" sample_files [sample_path] sample_file
     sample_owner rfl rfl rfl rfl⟩

/-- Claim C9: when the record and owner resolve, the actor is authorized, but
the backing path does not exist, `os.remove` raises and the exception
propagates unhandled: the trace ends in an unhandled error, the record store
and the filesystem are unchanged (the record is NOT deleted), and no flash or
redirect happens. -/
theorem delete_file_os_remove_failure_propagates (file_id_arg : QueryParam)
    (users : List User) (current_user : User) (admin : Bool)
    (upload_folder : String) (files : List UploadedFile) (fs : List String)
    (file_record : UploadedFile) (file_owner : User)
    (hfind : files.find? (fun f => f.id == args_get file_id_arg 0) =
      some file_record)
    (howner : users.find? (fun u => u.id == file_record.user_id) =
      some file_owner)
    (hauth : (file_owner.id == current_user.id || admin) = true)
    (hmiss : fs.contains
      (safe_join upload_folder file_owner.discord
        file_record.current_name) = false) :
    DeleteFile.post file_id_arg users current_user admin upload_folder
      files fs =
    { trace := [Event.logInfoDelete file_record file_owner
                  current_user.username current_user.discord,
                Event.unhandledError "FileNotFoundError"]
      files := files, fs := fs } := by
  have hmem : safe_join upload_folder file_owner.discord
      file_record.current_name ∉ fs := by simpa using hmiss
  simp [DeleteFile.post, hfind, howner, hauth, hmem]

/-- Witness for C9: the owner deletes their own file but the backing path is
absent from the filesystem; the run ends in an unhandled error and the record
store is unchanged. -/
theorem delete_file_os_remove_failure_propagates_witness :
    DeleteFile.post (QueryParam.intValue 5) sample_users sample_owner false
      "uploads" sample_files [] =
    { trace := [Event.logInfoDelete sample_file sample_owner "alice"
                  "alice_d",
                Event.unhandledError "FileNotFoundError"]
      files := sample_files, fs := [] } :=
  delete_file_os_remove_failure_propagates (QueryParam.intValue 5)
    sample_users sample_owner false "uploads" sample_files [] sample_file
    sample_owner rfl rfl rfl rfl

/-- Claim C10: a POST whose `file_id` query parameter is absent or not
parseable as an integer resolves the id to the default `0`; when no record
with id `0` exists the request aborts with 404, with the record store and
filesystem untouched — no authorization check, filesystem removal, or record
deletion happens. -/
theorem delete_file_default_id_aborts_404 (file_id_arg : QueryParam)
    (users : List User) (current_user : User) (admin : Bool)
    (upload_folder : String) (files : List UploadedFile) (fs : List String)
    (harg : file_id_arg = QueryParam.absent ∨
      ∃ s, file_id_arg = QueryParam.unparseable s)
    (hnone : files.find? (fun f => f.id == (0 : Int)) = none) :
    args_get file_id_arg 0 = 0 ∧
    DeleteFile.post file_id_arg users current_user admin upload_folder
      files fs =
    { trace := [Event.abort404], files := files, fs := fs } := by
  have h0 : args_get file_id_arg 0 = 0 := by
    rcases harg with h | ⟨s, h⟩ <;> subst h <;> rfl
  refine ⟨h0, ?_⟩
  simp [DeleteFile.post, h0, hnone]

/-- Witness for C10: an absent `file_id` on a store holding only a file with
id 5 aborts with 404, leaving both stores untouched. -/
theorem delete_file_default_id_aborts_404_witness :
    args_get QueryParam.absent 0 = 0 ∧
    DeleteFile.post QueryParam.absent sample_users sample_actor false
      "uploads" sample_files [sample_path] =
    { trace := [Event.abort404], files := sample_files
      fs := [sample_path] } :=
  delete_file_default_id_aborts_404 QueryParam.absent sample_users
    sample_actor false "uploads" sample_files [sample_path]
    (Or.inl rfl) rfl

/-- Claim C5: when no external identity is linked, token generation deletes
every token stored under the requesting user's discord key before persisting
the fresh token (the trace shows the bulk delete strictly before the insert),
and the resulting store keeps exactly one token — the fresh one — under that
key. -/
theorem generate_token_single_valid_token (current_user : User)
    (token_hex : String) (tokens : List Token) :
    ((GenerateToken.get current_user none token_hex tokens).trace =
      [Event.deleteTokens current_user.discord,
       Event.addToken
         { token := token_hex, discord_user_id := current_user.discord },
       Event.flashMsg (token_flash_message token_hex) "message",
       Event.redirectTo "user.profile"]) ∧
    ((GenerateToken.get current_user none token_hex tokens).tokens =
      tokens.filter (fun t => !(t.discord_user_id == current_user.discord))
        ++ [{ token := token_hex,
              discord_user_id := current_user.discord }]) ∧
    ((GenerateToken.get current_user none token_hex tokens).tokens.filter
        (fun t => t.discord_user_id == current_user.discord) =
      [{ token := token_hex, discord_user_id := current_user.discord }]) := by
  refine ⟨rfl, rfl, ?_⟩
  simp [GenerateToken.get, List.filter_append,
    filter_key_after_filter_not_key]

/-- Claim C6: when the requesting user already has a linked external
identity, token generation is a no-op on the token store: the view only
flashes an informational message and redirects, and the trace contains no
token-store write at all. -/
theorem generate_token_noop_when_linked (current_user : User)
    (ckey : String) (token_hex : String) (tokens : List Token) :
    (GenerateToken.get current_user (some ckey) token_hex tokens =
      { trace := [Event.flashMsg (already_linked_message ckey) "message",
                  Event.redirectTo "user.profile"]
        tokens := tokens }) ∧
    ((GenerateToken.get current_user (some ckey) token_hex tokens).trace.filter
      isTokenWrite = []) :=
  ⟨rfl, rfl⟩

end Flaskbb
